import Mathlib

/-!
Shallow embedding of `src/lib/buildFile.js` from the style-dictionary
repository, together with models (taken from the specification) of the
external collaborators that the file requires but whose sources are not
part of this repository slice: `filterProperties`, `GroupMessages` and
`createFormatArgs`.

Conventions of the embedding:
* JS strings are Lean `String`s; `chalk` colourings are identity on the
  text (the spec declares the styling cosmetic), so every diagnostic line
  is modelled by its uncoloured text.
* JS objects used as string-keyed maps (the name-collision accumulator,
  the `GroupMessages` store) are modelled as insertion-ordered association
  lists with unique keys, matching JS string-key enumeration order.
* The filesystem and the console are modelled explicitly: a `BuildState`
  carries the directories created, the files written and the log lines
  printed, and `buildFile` is a state transformer.  A thrown JS `Error`
  becomes an `Except.error` paired with the state at the throw point.
-/

set_option autoImplicit false

namespace StyleDictionary

/-- A design token as it reaches `buildFile`: the final emitted `name`,
the `path` through the token tree and the (already transformed) `value`. -/
structure Token where
  name : String
  path : List String
  value : String
deriving Repr, DecidableEq

/-- The JS-object shell of a `properties` tree as far as `buildFile`
inspects it: its enumerable own keys (`Object.keys`) and whether its
`constructor` is `Object` (false for null-prototype objects, `Map`s, …). -/
structure PropsObj where
  keys : List String
  ctorIsObject : Bool
deriving Repr, DecidableEq

/-- Result shape of `filterProperties`: whether the result has an own
`properties` key, the `properties` container and the flat token list. -/
structure FilteredProps where
  hasPropertiesKey : Bool
  properties : PropsObj
  allProperties : List Token
deriving Repr, DecidableEq

/-- The full resolved dictionary handed to `buildFile`. -/
structure Dictionary where
  properties : PropsObj
  allProperties : List Token
deriving Repr, DecidableEq

/-- The dictionary view assembled by `buildFile` for the formatter:
`Object.assign({}, dictionary, {properties, allProperties, tokens,
allTokens, _properties})`.  `origProperties` models the `_properties`
back-reference. -/
structure FilteredDictionary where
  properties : PropsObj
  allProperties : List Token
  tokens : PropsObj
  allTokens : List Token
  origProperties : PropsObj

/-- The part of a file spec a formatter can observe (the spec minus the
formatter itself, to break the type-level cycle). -/
structure FileView where
  destination : Option String
  filter : Option (Token → Bool)

/-- Platform configuration as far as `buildFile` reads it. -/
structure PlatformConfig where
  buildPath : Option String

/-- Modelled from the spec: `createFormatArgs` bundles the filtered
dictionary, the platform config and the file spec into one argument
object (`src/lib/utils/createFormatArgs.js` is not in the repository
slice). -/
structure FormatArgs where
  dictionary : FilteredDictionary
  platform : PlatformConfig
  file : FileView

/-- A formatter function value: its `nested` own property (absent ↦
`false`, matching JS truthiness) and its callable part.  The first
argument of `run` is the JS `this` binding (`none` for a plain call);
the remaining arguments are the positional ones of the call
`format(formatArgs, platform, file)`. -/
structure Formatter where
  nested : Bool
  run : Option FileView → FormatArgs → PlatformConfig → FileView → String

/-- `Function.prototype.bind`: the bound copy calls the original with the
fixed `this`; the copy is a fresh function object, so it does not carry
the original's own `nested` property. -/
def Formatter.bindThis (f : Formatter) (thisArg : FileView) : Formatter where
  nested := false
  run := fun _ args p fl => f.run (some thisArg) args p fl

/-- A file spec as destructured by `buildFile`: `destination` is `some`
iff the field is a string, `format` is `some` iff the field is a
function. -/
structure FileSpec where
  destination : Option String := none
  filter : Option (Token → Bool) := none
  format : Option Formatter := none

def FileSpec.view (f : FileSpec) : FileView :=
  { destination := f.destination, filter := f.filter }

/-- The filesystem as `buildFile` touches it: directories known to exist
and the files written (later writes shadow earlier entries). -/
structure FS where
  dirs : List String
  files : List (String × String)
deriving Repr, DecidableEq

def FS.read (fs : FS) (p : String) : Option String :=
  (fs.files.find? (fun f => f.1 == p)).map (fun f => f.2)

def FS.write (fs : FS) (p c : String) : FS :=
  { fs with files := (p, c) :: fs.files }

def FS.mkdirs (fs : FS) (d : String) : FS :=
  { fs with dirs := d :: fs.dirs }

/-- `if (!fs.existsSync(dirname)) fs.mkdirsSync(dirname)`. -/
def FS.mkdirIfNeeded (fs : FS) (d : String) : FS :=
  if fs.dirs.contains d then fs else fs.mkdirs d

namespace GroupMessages

/-- Modelled from the spec: the `GroupMessages` store
(`src/lib/utils/groupMessages.js` is not in the repository slice) is a
named, clearable bucket of message strings: an insertion-ordered map from
group name to its messages. -/
abbrev Store := List (String × List String)

def GROUP.PropertyNameCollisionWarnings : String :=
  "Property Name Collision Warnings"

def GROUP.FilteredOutputReferences : String :=
  "Filtered output references"

/-- Messages currently recorded under a group key. -/
def fetchMessages : Store → String → List String
  | [], _ => []
  | (k', ms) :: rest, k => if k' = k then ms else fetchMessages rest k

/-- Remove every message of a group. -/
def clear : Store → String → Store
  | [], _ => []
  | (k', ms) :: rest, k =>
    if k' = k then clear rest k else (k', ms) :: clear rest k

/-- Append one message to a group, creating the group if absent. -/
def add : Store → String → String → Store
  | [], k, m => [(k, [m])]
  | (k', ms) :: rest, k, m =>
    if k' = k then (k', ms ++ [m]) :: rest else (k', ms) :: add rest k m

def count (gm : Store) (k : String) : Nat :=
  (fetchMessages gm k).length

end GroupMessages

/-- A run-state for one emission: filesystem, diagnostics store, console
log (in print order). -/
structure BuildState where
  fs : FS
  gm : GroupMessages.Store
  log : List String
deriving Repr, DecidableEq

/-- JS return value of `buildFile`: `null` on the empty-filter skip path,
`undefined` (no explicit return) otherwise. -/
inductive BuildResult where
  | nullSkip
  | undef
deriving Repr, DecidableEq

/-- Node's POSIX `path.dirname` scan: walking from the end of the string
(indices ≥ 1), skip trailing slashes, then report the index of the last
slash before the final path component. -/
def dirnameLoop (cs : List Char) : Nat → Bool → Option Nat
  | 0, _ => none
  | i + 1, matchedSlash =>
    match cs[i + 1]? with
    | some c =>
      if c = '/' then
        if matchedSlash then dirnameLoop cs i matchedSlash else some (i + 1)
      else dirnameLoop cs i false
    | none => dirnameLoop cs i matchedSlash

/-- Node's POSIX `path.dirname`. -/
def dirname (p : String) : String :=
  let cs := p.data
  if cs.length = 0 then "."
  else
    let hasRoot := cs.head? = some '/'
    match dirnameLoop cs (cs.length - 1) true with
    | none => if hasRoot then "/" else "."
    | some e => if hasRoot ∧ e = 1 then "//" else ⟨cs.take e⟩

/-- Modelled from the spec: the predicate applied by `filterProperties`
— absence of a filter means "include everything"
(`src/lib/filterProperties.js` is not in the repository slice). -/
def filterPredicate (filter : Option (Token → Bool)) (t : Token) : Bool :=
  match filter with
  | none => true
  | some f => f t

/-- Modelled from the spec: `filterProperties` selects the tokens
satisfying the predicate, preserving their original relative order, and
rebuilds the nested `properties` tree restricted to the included tokens
with empty branches pruned (so its top-level keys are the distinct first
path segments of the included tokens).  The result is a plain object with
an own `properties` key. -/
def filterProperties (d : Dictionary) (filter : Option (Token → Bool)) :
    FilteredProps :=
  let included := d.allProperties.filter (filterPredicate filter)
  { hasPropertiesKey := true
    properties :=
      { keys := included.foldl
          (fun ks t =>
            let k := t.path.headD ""
            if ks.contains k then ks else ks ++ [k]) []
        ctorIsObject := true }
    allProperties := included }

/-- The empty-result check of `buildFile`:
`filteredProperties.hasOwnProperty('properties') &&
Object.keys(filteredProperties.properties).length === 0 &&
filteredProperties.properties.constructor === Object`. -/
def emptyResultSkip (fp : FilteredProps) : Bool :=
  fp.hasPropertiesKey && fp.properties.keys.length == 0 &&
    fp.properties.ctorIsObject

/-- One step of the name-collision accumulator: push the token onto the
entry for its name (JS object: first matching key), creating the entry at
the end when absent. -/
def addToGroup (groups : List (String × List Token)) (t : Token) :
    List (String × List Token) :=
  match groups with
  | [] => [(t.name, [t])]
  | (n, ts) :: rest =>
    if n = t.name then (n, ts ++ [t]) :: rest else (n, ts) :: addToGroup rest t

/-- `nameCollisionObj` of `buildFile`: tokens grouped by emitted name, in
first-seen key order, each group in token order. -/
def nameCollisionGroups (tokens : List Token) : List (String × List Token) :=
  tokens.foldl addToGroup []

/-- One line of a collision diagnostic: the dotted path and the value of
a contributing token (chalk colouring dropped). -/
def tokenCollisionLine (t : Token) : String :=
  String.intercalate "." t.path ++ "   " ++ t.value

/-- The diagnostic recorded for one colliding name. -/
def collisionMessage (name : String) (toks : List Token) : String :=
  "Output name " ++ name ++ " was generated by:\n        " ++
    String.intercalate "\n        " (toks.map tokenCollisionLine)

/-- The `Object.keys(nameCollisionObj).forEach` loop: for every group of
size > 1, add its diagnostic to the given `GroupMessages` group. -/
def addCollisionWarnings :
    GroupMessages.Store → String → List (String × List Token) →
      GroupMessages.Store
  | gm, _, [] => gm
  | gm, key, g :: gs =>
    addCollisionWarnings
      (if 1 < g.2.length then
        GroupMessages.add gm key (collisionMessage g.1 g.2)
      else gm)
      key gs

/-- The diagnostics the collision loop records, as a list: one message per
group of size > 1, in group order. -/
def collisionMessagesOf : List (String × List Token) → List String
  | [] => []
  | g :: gs =>
    (if 1 < g.2.length then [collisionMessage g.1 g.2] else []) ++
      collisionMessagesOf gs

/-- The collision diagnostics recorded for a filtered token list. -/
def collisionMessages (T : List Token) : List String :=
  collisionMessagesOf (nameCollisionGroups T)

/-- Diagnostics group key for collisions: scoped per destination. -/
def collisionKey (destination : String) : String :=
  GroupMessages.GROUP.PropertyNameCollisionWarnings ++ ":" ++ destination

/-- The collision-detector part of an emission: clear the per-destination
group, then record one diagnostic per colliding name. -/
def gmAfterCollisions (gm : GroupMessages.Store) (destination : String)
    (tokens : List Token) : GroupMessages.Store :=
  addCollisionWarnings (GroupMessages.clear gm (collisionKey destination))
    (collisionKey destination) (nameCollisionGroups tokens)

def successLine (fullDestination : String) : String :=
  "✔︎ " ++ fullDestination

def warnHeader (fullDestination : String) : String :=
  "⚠️ " ++ fullDestination

def collisionHelp : String :=
  String.intercalate "\n    "
    ["This many-to-one issue is usually caused by some combination of:",
     "* conflicting or similar paths/names in property definitions",
     "* platform transforms/transformGroups affecting names, especially when removing specificity",
     "* overly inclusive file filters"]

/-- The collision-warning block printed on the warning path. -/
def collisionWarnBlock (destination : String) (msgs : List String) : String :=
  "While building " ++ destination ++
    ", token collisions were found; output may be unexpected." ++
    "\n    " ++ String.intercalate "\n    " msgs ++ "\n" ++ collisionHelp

def refHelp : String :=
  "This is caused when combining a filter and `outputReferences`."

/-- The reference-loss warning block printed on the warning path. -/
def refWarnBlock (destination : String) (msgs : List String) : String :=
  "While building " ++ destination ++
    ", filtered out token references were found; output may be unexpected. Here are the references that are used but not defined in the file" ++
    "\n    " ++ String.intercalate "\n    " msgs ++ "\n" ++ refHelp

/-- The console lines printed by the reporting tail of `buildFile`. -/
def reportLines (nested : Bool) (collisionCount refCount : Nat)
    (fullDestination destination : String)
    (collisionMsgs refMsgs : List String) : List String :=
  if (nested || collisionCount == 0) && refCount == 0 then
    [successLine fullDestination]
  else
    [warnHeader fullDestination] ++
      (if 0 < collisionCount then [collisionWarnBlock destination collisionMsgs]
       else []) ++
      (if 0 < refCount then [refWarnBlock destination refMsgs] else [])

/-- `fullDestination = destination`, prefixed by `platform.buildPath` when
that is truthy (a missing or empty build path leaves the destination
unprefixed). -/
def fullDestinationOf (platform : PlatformConfig) (destination : String) :
    String :=
  match platform.buildPath with
  | some bp => if bp = "" then destination else bp ++ destination
  | none => destination

/-- The filtered dictionary assembled for the formatter. -/
def mkFilteredDictionary (dictionary : Dictionary) (fp : FilteredProps) :
    FilteredDictionary :=
  { properties := fp.properties
    allProperties := fp.allProperties
    tokens := fp.properties
    allTokens := fp.allProperties
    origProperties := dictionary.properties }

/-- The string produced by the formatter call
`format(createFormatArgs({dictionary, platform, file}), platform, file)`
where `format` has been bound to the file object. -/
def emittedContent
    (filterFn : Dictionary → Option (Token → Bool) → FilteredProps)
    (fmt : Formatter) (file : FileSpec) (platform : PlatformConfig)
    (dictionary : Dictionary) : String :=
  let fp := filterFn dictionary file.filter
  (fmt.bindThis file.view).run none
    { dictionary := mkFilteredDictionary dictionary fp
      platform := platform
      file := file.view }
    platform file.view

/-- Shallow embedding of `buildFile(file, platform, dictionary)`.  The
`filterFn` parameter is the `filterProperties` module dependency; the
whole repository pipeline uses `filterProperties` above.  A thrown JS
error is an `Except.error` with the state at the throw point. -/
def buildFile (filterFn : Dictionary → Option (Token → Bool) → FilteredProps)
    (file : FileSpec) (platform : PlatformConfig) (dictionary : Dictionary)
    (st : BuildState) : BuildState × Except String BuildResult :=
  match file.format with
  | none => (st, Except.error "Please enter a valid file format")
  | some fmt =>
    match file.destination with
    | none => (st, Except.error "Please enter a valid destination")
    | some destination =>
      -- `nested` is read before the format is bound to the file object.
      let nested := fmt.nested
      let boundFormat := fmt.bindThis file.view
      let fullDestination := fullDestinationOf platform destination
      let fs1 := st.fs.mkdirIfNeeded (dirname fullDestination)
      let fp := filterFn dictionary file.filter
      let filteredDictionary := mkFilteredDictionary dictionary fp
      if emptyResultSkip fp then
        ({ st with
            fs := fs1
            log := st.log ++
              ["No properties for " ++ destination ++ ". File not created."] },
         Except.ok BuildResult.nullSkip)
      else
        let key := collisionKey destination
        let gm2 := gmAfterCollisions st.gm destination fp.allProperties
        let collisionCount := GroupMessages.count gm2 key
        let content := boundFormat.run none
          { dictionary := filteredDictionary
            platform := platform
            file := file.view }
          platform file.view
        let fs2 := fs1.write fullDestination content
        let refCount :=
          GroupMessages.count gm2 GroupMessages.GROUP.FilteredOutputReferences
        let logLines := reportLines nested collisionCount refCount
          fullDestination destination
          (GroupMessages.fetchMessages gm2 key)
          (GroupMessages.fetchMessages gm2
            GroupMessages.GROUP.FilteredOutputReferences)
        -- `flush` (read + clear) happens exactly when the warning path
        -- prints reference-loss warnings, i.e. iff `refCount > 0`.
        let gm3 :=
          if 0 < refCount then
            GroupMessages.clear gm2 GroupMessages.GROUP.FilteredOutputReferences
          else gm2
        ({ fs := fs2, gm := gm3, log := st.log ++ logLines },
         Except.ok BuildResult.undef)

/-! ### Basic lemmas about the diagnostics store -/

namespace GroupMessages

theorem fetchMessages_clear_self (gm : Store) (k : String) :
    fetchMessages (clear gm k) k = [] := by
  induction gm with
  | nil => rfl
  | cons p rest ih =>
    obtain ⟨k', ms⟩ := p
    by_cases h : k' = k <;> simp [clear, fetchMessages, h, ih]

theorem fetchMessages_clear_ne (gm : Store) {k k' : String} (h : k' ≠ k) :
    fetchMessages (clear gm k) k' = fetchMessages gm k' := by
  induction gm with
  | nil => rfl
  | cons p rest ih =>
    obtain ⟨k'', ms⟩ := p
    by_cases h2 : k'' = k
    · simp [clear, fetchMessages, h2, ih, Ne.symm h]
    · by_cases h3 : k'' = k' <;> simp [clear, fetchMessages, h2, h3, ih, h]

theorem fetchMessages_add_self (gm : Store) (k m : String) :
    fetchMessages (add gm k m) k = fetchMessages gm k ++ [m] := by
  induction gm with
  | nil => simp [add, fetchMessages]
  | cons p rest ih =>
    obtain ⟨k', ms⟩ := p
    by_cases h : k' = k <;> simp [add, fetchMessages, h, ih]

theorem fetchMessages_add_ne (gm : Store) {k k' : String} (m : String)
    (h : k' ≠ k) :
    fetchMessages (add gm k m) k' = fetchMessages gm k' := by
  induction gm with
  | nil => simp [add, fetchMessages, Ne.symm h]
  | cons p rest ih =>
    obtain ⟨k'', ms⟩ := p
    by_cases h2 : k'' = k
    · simp [add, fetchMessages, h2, Ne.symm h]
    · by_cases h3 : k'' = k' <;> simp [add, fetchMessages, h2, h3, ih, h]

theorem clear_add_self (gm : Store) (k m : String) :
    clear (add gm k m) k = clear gm k := by
  induction gm with
  | nil => simp [add, clear]
  | cons p rest ih =>
    obtain ⟨k', ms⟩ := p
    by_cases h : k' = k <;> simp [add, clear, h, ih]

theorem clear_clear_self (gm : Store) (k : String) :
    clear (clear gm k) k = clear gm k := by
  induction gm with
  | nil => rfl
  | cons p rest ih =>
    obtain ⟨k', ms⟩ := p
    by_cases h : k' = k <;> simp [clear, h, ih]

end GroupMessages

/-! ### Lemmas about the collision loop's effect on the store -/

theorem fetchMessages_addCollisionWarnings_self
    (groups : List (String × List Token)) :
    ∀ (gm : GroupMessages.Store) (k : String),
      GroupMessages.fetchMessages (addCollisionWarnings gm k groups) k =
        GroupMessages.fetchMessages gm k ++ collisionMessagesOf groups := by
  induction groups with
  | nil => intro gm k; simp [addCollisionWarnings, collisionMessagesOf]
  | cons g gs ih =>
    intro gm k
    by_cases h : 1 < g.2.length <;>
      simp [addCollisionWarnings, collisionMessagesOf, h, ih,
        GroupMessages.fetchMessages_add_self]

theorem fetchMessages_addCollisionWarnings_ne
    (groups : List (String × List Token)) :
    ∀ (gm : GroupMessages.Store) {k k' : String}, k' ≠ k →
      GroupMessages.fetchMessages (addCollisionWarnings gm k groups) k' =
        GroupMessages.fetchMessages gm k' := by
  induction groups with
  | nil => intro gm k k' _; rfl
  | cons g gs ih =>
    intro gm k k' h
    by_cases hl : 1 < g.2.length <;>
      simp [addCollisionWarnings, hl, ih _ h,
        GroupMessages.fetchMessages_add_ne _ _ h]

theorem clear_addCollisionWarnings_self
    (groups : List (String × List Token)) :
    ∀ (gm : GroupMessages.Store) (k : String),
      GroupMessages.clear (addCollisionWarnings gm k groups) k =
        GroupMessages.clear gm k := by
  induction groups with
  | nil => intro gm k; rfl
  | cons g gs ih =>
    intro gm k
    by_cases hl : 1 < g.2.length <;>
      simp [addCollisionWarnings, hl, ih, GroupMessages.clear_add_self]

theorem fetchMessages_gmAfterCollisions_self (gm : GroupMessages.Store)
    (destination : String) (T : List Token) :
    GroupMessages.fetchMessages (gmAfterCollisions gm destination T)
        (collisionKey destination) =
      collisionMessages T := by
  rw [gmAfterCollisions, fetchMessages_addCollisionWarnings_self,
    GroupMessages.fetchMessages_clear_self]
  rfl

theorem fetchMessages_gmAfterCollisions_ne (gm : GroupMessages.Store)
    (destination : String) (T : List Token) {k : String}
    (h : k ≠ collisionKey destination) :
    GroupMessages.fetchMessages (gmAfterCollisions gm destination T) k =
      GroupMessages.fetchMessages gm k := by
  rw [gmAfterCollisions, fetchMessages_addCollisionWarnings_ne _ _ h,
    GroupMessages.fetchMessages_clear_ne _ h]

theorem clear_gmAfterCollisions_self (gm : GroupMessages.Store)
    (destination : String) (T : List Token) :
    GroupMessages.clear (gmAfterCollisions gm destination T)
        (collisionKey destination) =
      GroupMessages.clear gm (collisionKey destination) := by
  rw [gmAfterCollisions, clear_addCollisionWarnings_self,
    GroupMessages.clear_clear_self]

/-- The first character of a string append is that of its nonempty left
part. -/
theorem data_head_append (a c : String) (ha : a.data ≠ []) :
    (a ++ c).data.head? = a.data.head? := by
  have hd : (a ++ c).data = a.data ++ c.data := String.data_append a c
  rw [hd]
  cases h : a.data with
  | nil => exact absurd h ha
  | cons x xs => simp

/-- The per-destination collision group never aliases the global
reference-loss group. -/
theorem collisionKey_ne_refs (d : String) :
    collisionKey d ≠ GroupMessages.GROUP.FilteredOutputReferences := by
  intro h
  have h2 := congrArg (fun s => s.data.head?) h
  simp only [collisionKey] at h2
  rw [data_head_append _ _ (by decide)] at h2
  exact absurd h2 (by decide)

/-! ### Filesystem lemmas -/

theorem FS.read_write_self (fs : FS) (p c : String) :
    (fs.write p c).read p = some c := by
  simp [FS.read, FS.write, List.find?]

theorem FS.files_mkdirIfNeeded (fs : FS) (d : String) :
    (fs.mkdirIfNeeded d).files = fs.files := by
  by_cases h : d ∈ fs.dirs <;> simp [FS.mkdirIfNeeded, FS.mkdirs, h]

theorem FS.read_mkdirIfNeeded (fs : FS) (d p : String) :
    (fs.mkdirIfNeeded d).read p = fs.read p := by
  rw [FS.read, FS.files_mkdirIfNeeded]; rfl

theorem FS.dirs_write (fs : FS) (p c : String) :
    (fs.write p c).dirs = fs.dirs := rfl

theorem FS.mem_dirs_mkdirIfNeeded (fs : FS) (d : String) :
    d ∈ (fs.mkdirIfNeeded d).dirs := by
  by_cases h : d ∈ fs.dirs <;> simp [FS.mkdirIfNeeded, FS.mkdirs, h]

theorem FS.mkdirIfNeeded_of_mem (fs : FS) (d : String)
    (h : d ∈ fs.dirs) : fs.mkdirIfNeeded d = fs := by
  simp [FS.mkdirIfNeeded, h]

theorem FS.mkdirIfNeeded_idem (fs : FS) (d : String) :
    (fs.mkdirIfNeeded d).mkdirIfNeeded d = fs.mkdirIfNeeded d :=
  FS.mkdirIfNeeded_of_mem _ _ (FS.mem_dirs_mkdirIfNeeded fs d)

theorem FS.mkdirIfNeeded_write_same (fs : FS) (d p c : String) :
    ((fs.mkdirIfNeeded d).write p c).mkdirIfNeeded d =
      (fs.mkdirIfNeeded d).write p c :=
  FS.mkdirIfNeeded_of_mem _ _ (by
    rw [FS.dirs_write]; exact FS.mem_dirs_mkdirIfNeeded fs d)

/-! ### The collision detector, related to a direct first-seen-order view

`nameCollisionGroups` is a left fold over a JS object; the lemmas below
show it equals the direct description: the distinct emitted names in
first-seen order, each paired with the sublist of tokens bearing that
name in original order. -/

/-- Record one more token's name, keeping first-seen order. -/
def insertName (ns : List String) (t : Token) : List String :=
  if t.name ∈ ns then ns else ns ++ [t.name]

/-- The distinct emitted names of a token list, in first-seen order. -/
def namesInOrder (T : List Token) : List String :=
  T.foldl insertName []

/-- The tokens of `T` whose emitted name is `n`, in original order. -/
def tokensNamed (T : List Token) (n : String) : List Token :=
  T.filter (fun t => t.name == n)

/-- Direct description of the collision grouping. -/
def toGroups (T : List Token) : List (String × List Token) :=
  (namesInOrder T).map (fun n => (n, tokensNamed T n))

theorem nodup_foldl_insertName (T : List Token) :
    ∀ acc : List String, acc.Nodup → (T.foldl insertName acc).Nodup := by
  induction T with
  | nil => intro acc h; exact h
  | cons t T ih =>
    intro acc h
    rw [List.foldl_cons]
    apply ih
    rw [insertName]
    by_cases hc : t.name ∈ acc
    · simp [hc, h]
    · simp [hc, List.nodup_append, h]

theorem namesInOrder_nodup (T : List Token) : (namesInOrder T).Nodup :=
  nodup_foldl_insertName T [] List.nodup_nil

theorem mem_foldl_insertName (T : List Token) :
    ∀ (acc : List String) (n : String),
      n ∈ T.foldl insertName acc ↔ n ∈ acc ∨ ∃ t ∈ T, t.name = n := by
  induction T with
  | nil => intro acc n; simp
  | cons t T ih =>
    intro acc n
    rw [List.foldl_cons, ih, insertName]
    by_cases hc : t.name ∈ acc
    · rw [if_pos hc]
      simp only [List.mem_cons]
      constructor
      · rintro (h | ⟨t', ht', hn⟩)
        · exact Or.inl h
        · exact Or.inr ⟨t', Or.inr ht', hn⟩
      · rintro (h | ⟨t', ht' | ht', hn⟩)
        · exact Or.inl h
        · exact Or.inl (by rw [← hn, ht']; exact hc)
        · exact Or.inr ⟨t', ht', hn⟩
    · rw [if_neg hc]
      simp only [List.mem_append, List.mem_cons, List.not_mem_nil, or_false]
      constructor
      · rintro ((h | h) | ⟨t', ht', hn⟩)
        · exact Or.inl h
        · exact Or.inr ⟨t, Or.inl rfl, h.symm⟩
        · exact Or.inr ⟨t', Or.inr ht', hn⟩
      · rintro (h | ⟨t', ht' | ht', hn⟩)
        · exact Or.inl (Or.inl h)
        · exact Or.inl (Or.inr (by rw [← hn, ht']))
        · exact Or.inr ⟨t', ht', hn⟩

theorem mem_namesInOrder (T : List Token) (n : String) :
    n ∈ namesInOrder T ↔ ∃ t ∈ T, t.name = n := by
  rw [namesInOrder, mem_foldl_insertName]
  simp

theorem namesInOrder_concat (L : List Token) (t : Token) :
    namesInOrder (L ++ [t]) = insertName (namesInOrder L) t := by
  rw [namesInOrder, List.foldl_append]
  rfl

theorem tokensNamed_concat (L : List Token) (t : Token) (n : String) :
    tokensNamed (L ++ [t]) n =
      tokensNamed L n ++ if t.name = n then [t] else [] := by
  rw [tokensNamed, tokensNamed, List.filter_append]
  by_cases h : t.name = n
  · have hb : (t.name == n) = true := by simp [h]
    simp [List.filter, hb, h]
  · have hb : (t.name == n) = false := by simp [h]
    simp [List.filter, hb, h]

theorem addToGroup_map_mem (tok : Token) (F : String → List Token) :
    ∀ ns : List String, ns.Nodup → tok.name ∈ ns →
      addToGroup (ns.map (fun n => (n, F n))) tok =
        ns.map (fun n => (n, F n ++ if n = tok.name then [tok] else [])) := by
  intro ns
  induction ns with
  | nil => intro _ h; cases h
  | cons n ns ih =>
    intro hnd hmem
    rw [List.map_cons, List.map_cons, addToGroup]
    by_cases h : n = tok.name
    · rw [if_pos h]
      have hnotin : tok.name ∉ ns := by
        rw [← h]; exact (List.nodup_cons.mp hnd).1
      congr 1
      · simp [h]
      · refine (List.map_congr_left ?_).symm
        intro n' hn'
        have : n' ≠ tok.name := fun hh => hnotin (hh ▸ hn')
        simp [this]
    · rw [if_neg h]
      have hmem' : tok.name ∈ ns := by
        rcases List.mem_cons.mp hmem with hh | hh
        · exact absurd hh.symm h
        · exact hh
      congr 1
      · simp [h]
      · exact ih (List.nodup_cons.mp hnd).2 hmem'

theorem addToGroup_not_mem (tok : Token) :
    ∀ groups : List (String × List Token),
      (∀ g ∈ groups, g.1 ≠ tok.name) →
      addToGroup groups tok = groups ++ [(tok.name, [tok])] := by
  intro groups
  induction groups with
  | nil => intro _; rfl
  | cons g gs ih =>
    intro h
    obtain ⟨n, ts⟩ := g
    rw [addToGroup, if_neg (h (n, ts) (List.mem_cons_self _ _)),
      ih (fun g' hg' => h g' (List.mem_cons_of_mem _ hg'))]
    rfl

theorem addToGroup_toGroups (L : List Token) (t : Token) :
    addToGroup (toGroups L) t = toGroups (L ++ [t]) := by
  by_cases hmem : t.name ∈ namesInOrder L
  · rw [toGroups, toGroups, namesInOrder_concat, insertName,
      if_pos (by simpa using hmem),
      addToGroup_map_mem t (tokensNamed L) _ (namesInOrder_nodup L) hmem]
    refine List.map_congr_left ?_
    intro n _
    rw [tokensNamed_concat]
    by_cases h : n = t.name
    · simp [h]
    · simp [h, Ne.symm h]
  · rw [toGroups, toGroups, namesInOrder_concat, insertName,
      if_neg (by simpa using hmem),
      addToGroup_not_mem t _ (by
        intro g hg
        rcases List.mem_map.mp hg with ⟨n, hn, rfl⟩
        exact fun hh => hmem (hh ▸ hn))]
    rw [List.map_append]
    congr 1
    · refine List.map_congr_left ?_
      intro n hn
      have hne : n ≠ t.name := fun hh => hmem (hh ▸ hn)
      rw [tokensNamed_concat]
      simp [Ne.symm hne]
    · have hempty : tokensNamed L t.name = [] := by
        rw [tokensNamed, List.filter_eq_nil_iff]
        intro tok htok
        simp only [beq_iff_eq]
        intro hh
        exact hmem ((mem_namesInOrder L t.name).mpr ⟨tok, htok, hh⟩)
      simp [tokensNamed_concat, hempty]

theorem foldl_addToGroup (T : List Token) :
    ∀ L : List Token, T.foldl addToGroup (toGroups L) = toGroups (L ++ T) := by
  induction T with
  | nil => intro L; simp
  | cons t T ih =>
    intro L
    rw [List.foldl_cons, addToGroup_toGroups, ih]
    simp

/-- The collision grouping built by `buildFile`'s loop is exactly the
first-seen-order grouping by emitted name. -/
theorem nameCollisionGroups_eq (T : List Token) :
    nameCollisionGroups T = toGroups T := by
  have h := foldl_addToGroup T []
  simpa [nameCollisionGroups, toGroups, namesInOrder] using h

theorem collisionMessagesOf_map (F : String → List Token) :
    ∀ ns : List String,
      collisionMessagesOf (ns.map (fun n => (n, F n))) =
        (ns.filter (fun n => decide (1 < (F n).length))).map
          (fun n => collisionMessage n (F n)) := by
  intro ns
  induction ns with
  | nil => rfl
  | cons n ns ih =>
    by_cases h : 1 < (F n).length <;>
      simp [collisionMessagesOf, List.filter, h, ih]

/-- The diagnostics of the collision detector: one message per name borne
by more than one token, in first-seen order of those names, each listing
its contributing tokens in original order. -/
theorem collisionMessages_eq (T : List Token) :
    collisionMessages T =
      ((namesInOrder T).filter
          (fun n => decide (1 < (tokensNamed T n).length))).map
        (fun n => collisionMessage n (tokensNamed T n)) := by
  rw [collisionMessages, nameCollisionGroups_eq, toGroups,
    collisionMessagesOf_map]

/-! ### Characterizations of the three paths through `buildFile` -/

theorem buildFile_format_invalid
    (filterFn : Dictionary → Option (Token → Bool) → FilteredProps)
    (file : FileSpec) (platform : PlatformConfig) (dictionary : Dictionary)
    (st : BuildState) (hf : file.format = none) :
    buildFile filterFn file platform dictionary st =
      (st, Except.error "Please enter a valid file format") := by
  rw [buildFile, hf]

theorem buildFile_destination_invalid
    (filterFn : Dictionary → Option (Token → Bool) → FilteredProps)
    (file : FileSpec) (platform : PlatformConfig) (dictionary : Dictionary)
    (st : BuildState) (fmt : Formatter)
    (hf : file.format = some fmt) (hd : file.destination = none) :
    buildFile filterFn file platform dictionary st =
      (st, Except.error "Please enter a valid destination") := by
  rw [buildFile, hf, hd]

theorem buildFile_skip_eq
    (filterFn : Dictionary → Option (Token → Bool) → FilteredProps)
    (file : FileSpec) (platform : PlatformConfig) (dictionary : Dictionary)
    (st : BuildState) (fmt : Formatter) (dest : String)
    (hf : file.format = some fmt) (hd : file.destination = some dest)
    (hskip : emptyResultSkip (filterFn dictionary file.filter) = true) :
    buildFile filterFn file platform dictionary st =
      ({ fs := st.fs.mkdirIfNeeded (dirname (fullDestinationOf platform dest))
         gm := st.gm
         log := st.log ++
           ["No properties for " ++ dest ++ ". File not created."] },
       Except.ok BuildResult.nullSkip) := by
  rw [buildFile, hf, hd]
  simp only [hskip, if_true]

theorem buildFile_run_eq
    (filterFn : Dictionary → Option (Token → Bool) → FilteredProps)
    (file : FileSpec) (platform : PlatformConfig) (dictionary : Dictionary)
    (st : BuildState) (fmt : Formatter) (dest : String)
    (hf : file.format = some fmt) (hd : file.destination = some dest)
    (hns : emptyResultSkip (filterFn dictionary file.filter) = false) :
    buildFile filterFn file platform dictionary st =
      ({ fs := (st.fs.mkdirIfNeeded
            (dirname (fullDestinationOf platform dest))).write
            (fullDestinationOf platform dest)
            (emittedContent filterFn fmt file platform dictionary)
         gm :=
          if 0 < GroupMessages.count st.gm
              GroupMessages.GROUP.FilteredOutputReferences then
            GroupMessages.clear
              (gmAfterCollisions st.gm dest
                (filterFn dictionary file.filter).allProperties)
              GroupMessages.GROUP.FilteredOutputReferences
          else
            gmAfterCollisions st.gm dest
              (filterFn dictionary file.filter).allProperties
         log := st.log ++ reportLines fmt.nested
            (collisionMessages
              (filterFn dictionary file.filter).allProperties).length
            (GroupMessages.count st.gm
              GroupMessages.GROUP.FilteredOutputReferences)
            (fullDestinationOf platform dest) dest
            (collisionMessages (filterFn dictionary file.filter).allProperties)
            (GroupMessages.fetchMessages st.gm
              GroupMessages.GROUP.FilteredOutputReferences) },
       Except.ok BuildResult.undef) := by
  have hcc : GroupMessages.count
      (gmAfterCollisions st.gm dest
        (filterFn dictionary file.filter).allProperties)
      (collisionKey dest) =
      (collisionMessages (filterFn dictionary file.filter).allProperties).length := by
    rw [GroupMessages.count, fetchMessages_gmAfterCollisions_self]
  have hrc : GroupMessages.count
      (gmAfterCollisions st.gm dest
        (filterFn dictionary file.filter).allProperties)
      GroupMessages.GROUP.FilteredOutputReferences =
      GroupMessages.count st.gm GroupMessages.GROUP.FilteredOutputReferences := by
    rw [GroupMessages.count, GroupMessages.count,
      fetchMessages_gmAfterCollisions_ne _ _ _
        (Ne.symm (collisionKey_ne_refs dest))]
  have hcf : GroupMessages.fetchMessages
      (gmAfterCollisions st.gm dest
        (filterFn dictionary file.filter).allProperties)
      (collisionKey dest) =
      collisionMessages (filterFn dictionary file.filter).allProperties :=
    fetchMessages_gmAfterCollisions_self _ _ _
  have hrf : GroupMessages.fetchMessages
      (gmAfterCollisions st.gm dest
        (filterFn dictionary file.filter).allProperties)
      GroupMessages.GROUP.FilteredOutputReferences =
      GroupMessages.fetchMessages st.gm
        GroupMessages.GROUP.FilteredOutputReferences :=
    fetchMessages_gmAfterCollisions_ne _ _ _
      (Ne.symm (collisionKey_ne_refs dest))
  rw [buildFile, hf, hd]
  simp only [hns, Bool.false_eq_true, if_false, hcc, hrc, hcf, hrf,
    emittedContent, mkFilteredDictionary]

/-! ### Bridging lemmas for the empty-result check -/

theorem filterProperties_keys_nil (d : Dictionary)
    (f : Option (Token → Bool))
    (hfil : d.allProperties.filter (filterPredicate f) = []) :
    (filterProperties d f).properties.keys = [] := by
  simp [filterProperties, hfil]

theorem emptyResultSkip_filterProperties_of_keys_nil (d : Dictionary)
    (f : Option (Token → Bool))
    (hk : (filterProperties d f).properties.keys = []) :
    emptyResultSkip (filterProperties d f) = true := by
  have h1 : (filterProperties d f).hasPropertiesKey = true := rfl
  have h2 : (filterProperties d f).properties.ctorIsObject = true := rfl
  rw [emptyResultSkip, h1, h2, hk]
  rfl

/-! ### Sample inputs used by witnesses and counterexamples -/

/-- Two tokens sharing the emitted name `color-a`. -/
def tokA : Token := { name := "color-a", path := ["color", "a"], value := "#fff" }

def tokB : Token := { name := "color-a", path := ["color", "b"], value := "#000" }

def tokC : Token := { name := "color-c", path := ["color", "c"], value := "#123" }

def sampleFmt : Formatter :=
  { nested := false, run := fun _ _ _ _ => "CONTENT" }

def sampleNestedFmt : Formatter :=
  { nested := true, run := fun _ _ _ _ => "NESTED" }

def sampleDict : Dictionary :=
  { properties := { keys := ["color"], ctorIsObject := true }
    allProperties := [tokA, tokC, tokB] }

def emptySt : BuildState := { fs := { dirs := [], files := [] }, gm := [], log := [] }

/-- A file spec whose filter excludes every token. -/
def skipFile : FileSpec :=
  { destination := some "build/tokens.json"
    filter := some (fun _ => false)
    format := some sampleFmt }

def noBuildPath : PlatformConfig := { buildPath := none }

def noFormatFile : FileSpec :=
  { destination := some "build/tokens.json", filter := none, format := none }

def emptyDestFile : FileSpec :=
  { destination := some "", filter := none, format := some sampleFmt }

theorem fullDestinationOf_eq (platform : PlatformConfig) (dest : String) :
    fullDestinationOf platform dest = (platform.buildPath.getD "") ++ dest := by
  rw [fullDestinationOf]
  cases platform.buildPath with
  | none =>
    show dest = (none : Option String).getD "" ++ dest
    obtain ⟨l⟩ := dest
    rfl
  | some bp =>
    show (if bp = "" then dest else bp ++ dest) = (some bp).getD "" ++ dest
    by_cases h : bp = ""
    · rw [if_pos h, h]
      obtain ⟨l⟩ := dest
      rfl
    · rw [if_neg h]
      rfl

/-! ### Claim theorems -/

/-- C4: for every dictionary and filter predicate that exclude all tokens,
`buildFile` writes no file, appends exactly one informational line
`No properties for <destination>. File not created.` built from the
unprefixed destination, leaves the diagnostics store untouched, and
returns `null` without throwing. -/
theorem buildFile_empty_filter_skips
    (file : FileSpec) (platform : PlatformConfig) (dictionary : Dictionary)
    (st : BuildState) (fmt : Formatter) (dest : String)
    (hf : file.format = some fmt) (hd : file.destination = some dest)
    (hex : ∀ t ∈ dictionary.allProperties,
      filterPredicate file.filter t = false) :
    (buildFile filterProperties file platform dictionary st).2 =
        Except.ok BuildResult.nullSkip
      ∧ (buildFile filterProperties file platform dictionary st).1.fs.files =
        st.fs.files
      ∧ (buildFile filterProperties file platform dictionary st).1.log =
        st.log ++ ["No properties for " ++ dest ++ ". File not created."]
      ∧ (buildFile filterProperties file platform dictionary st).1.gm =
        st.gm := by
  have hfil :
      dictionary.allProperties.filter (filterPredicate file.filter) = [] :=
    List.filter_eq_nil_iff.mpr (by intro t ht; simp [hex t ht])
  have hskip := emptyResultSkip_filterProperties_of_keys_nil _ _
    (filterProperties_keys_nil _ _ hfil)
  rw [buildFile_skip_eq filterProperties file platform dictionary st fmt dest
    hf hd hskip]
  exact ⟨rfl, FS.files_mkdirIfNeeded _ _, rfl, rfl⟩

/-- Witness for C4 at a concrete input. -/
theorem buildFile_empty_filter_skips_witness :
    (buildFile filterProperties skipFile noBuildPath sampleDict emptySt).2 =
        Except.ok BuildResult.nullSkip
      ∧ (buildFile filterProperties skipFile noBuildPath sampleDict
          emptySt).1.fs.files = emptySt.fs.files
      ∧ (buildFile filterProperties skipFile noBuildPath sampleDict
          emptySt).1.log = emptySt.log ++
          ["No properties for " ++ "build/tokens.json" ++
            ". File not created."]
      ∧ (buildFile filterProperties skipFile noBuildPath sampleDict
          emptySt).1.gm = emptySt.gm :=
  buildFile_empty_filter_skips skipFile noBuildPath sampleDict emptySt
    sampleFmt "build/tokens.json" rfl rfl (fun _ _ => rfl)

/-- C2 (amended): when the filtered `properties` mapping is empty,
`buildFile` performs zero file writes — no file is created or modified and
a pre-existing file at the destination is left untouched — and returns a
skipped result regardless of the formatter; the destination's parent
directory, however, may still be created, because directory creation
precedes the empty-result check. -/
theorem buildFile_empty_filter_frame
    (file : FileSpec) (platform : PlatformConfig) (dictionary : Dictionary)
    (st : BuildState) (fmt : Formatter) (dest : String)
    (hf : file.format = some fmt) (hd : file.destination = some dest)
    (hk : (filterProperties dictionary file.filter).properties.keys = []) :
    (buildFile filterProperties file platform dictionary st).2 =
        Except.ok BuildResult.nullSkip
      ∧ (buildFile filterProperties file platform dictionary st).1.fs.files =
        st.fs.files
      ∧ FS.read (buildFile filterProperties file platform dictionary st).1.fs
          (fullDestinationOf platform dest) =
        FS.read st.fs (fullDestinationOf platform dest) := by
  have hskip := emptyResultSkip_filterProperties_of_keys_nil _ _ hk
  rw [buildFile_skip_eq filterProperties file platform dictionary st fmt dest
    hf hd hskip]
  exact ⟨rfl, FS.files_mkdirIfNeeded _ _, FS.read_mkdirIfNeeded _ _ _⟩

/-- Witness for C2's amended theorem at a concrete input. -/
theorem buildFile_empty_filter_frame_witness :
    (buildFile filterProperties skipFile noBuildPath sampleDict emptySt).2 =
        Except.ok BuildResult.nullSkip
      ∧ (buildFile filterProperties skipFile noBuildPath sampleDict
          emptySt).1.fs.files = emptySt.fs.files
      ∧ FS.read (buildFile filterProperties skipFile noBuildPath sampleDict
            emptySt).1.fs
          (fullDestinationOf noBuildPath "build/tokens.json") =
        FS.read emptySt.fs (fullDestinationOf noBuildPath "build/tokens.json") :=
  buildFile_empty_filter_frame skipFile noBuildPath sampleDict emptySt
    sampleFmt "build/tokens.json" rfl rfl (by decide)

/-- Counterexample to C2 as stated: on the skip path the parent directory
`build` of `build/tokens.json` is still created, so the claim's "no
directory is created or modified" fails. -/
theorem buildFile_skip_creates_directory_cex :
    (buildFile filterProperties skipFile noBuildPath sampleDict emptySt).2 =
        Except.ok BuildResult.nullSkip
      ∧ (buildFile filterProperties skipFile noBuildPath sampleDict
          emptySt).1.fs.dirs ≠ emptySt.fs.dirs := by
  constructor
  · rfl
  · decide

/-- C3 (amended): when the file spec's format is not a function, or its
destination is not a string, `buildFile` throws the error identifying the
invalid field with the state completely untouched (no directory created,
no log line, no diagnostics recorded); an empty-string destination,
however, passes the string check and does not raise. -/
theorem buildFile_precondition_errors
    (filterFn : Dictionary → Option (Token → Bool) → FilteredProps)
    (file : FileSpec) (platform : PlatformConfig) (dictionary : Dictionary)
    (st : BuildState) :
    (file.format = none →
      buildFile filterFn file platform dictionary st =
        (st, Except.error "Please enter a valid file format"))
    ∧ (∀ fmt : Formatter, file.format = some fmt → file.destination = none →
      buildFile filterFn file platform dictionary st =
        (st, Except.error "Please enter a valid destination")) :=
  ⟨fun hf => buildFile_format_invalid filterFn file platform dictionary st hf,
   fun fmt hf hd =>
    buildFile_destination_invalid filterFn file platform dictionary st fmt
      hf hd⟩

/-- Witness for C3's amended theorem: a spec without a format function
throws the format error and leaves the state untouched. -/
theorem buildFile_precondition_errors_witness :
    buildFile filterProperties noFormatFile noBuildPath sampleDict emptySt =
      (emptySt, Except.error "Please enter a valid file format") :=
  (buildFile_precondition_errors filterProperties noFormatFile noBuildPath
    sampleDict emptySt).1 rfl

/-- Counterexample to C3 as stated: an empty-string destination is not a
non-empty string, yet `buildFile` raises no error and completes the
emission. -/
theorem buildFile_empty_destination_no_error_cex :
    (buildFile filterProperties emptyDestFile noBuildPath sampleDict
      emptySt).2 = Except.ok BuildResult.undef := by
  rfl

/-- C7: on every successful (non-skip) emission, the output path equals
the platform's buildPath (empty string when absent) concatenated with the
destination, the file there is written — overwriting any previous
content — and its content equals exactly the string returned by the
formatter call. -/
theorem buildFile_writes_formatter_output
    (filterFn : Dictionary → Option (Token → Bool) → FilteredProps)
    (file : FileSpec) (platform : PlatformConfig) (dictionary : Dictionary)
    (st : BuildState) (fmt : Formatter) (dest : String)
    (hf : file.format = some fmt) (hd : file.destination = some dest)
    (hns : emptyResultSkip (filterFn dictionary file.filter) = false) :
    (buildFile filterFn file platform dictionary st).2 =
        Except.ok BuildResult.undef
      ∧ FS.read (buildFile filterFn file platform dictionary st).1.fs
          (fullDestinationOf platform dest) =
        some (emittedContent filterFn fmt file platform dictionary)
      ∧ fullDestinationOf platform dest = (platform.buildPath.getD "") ++ dest := by
  rw [buildFile_run_eq filterFn file platform dictionary st fmt dest hf hd hns]
  exact ⟨rfl, FS.read_write_self _ _ _, fullDestinationOf_eq platform dest⟩

/-- Witness for C7 at a concrete input with a build path. -/
theorem buildFile_writes_formatter_output_witness :
    (buildFile filterProperties
        { destination := some "vars.css", filter := none,
          format := some sampleFmt }
        { buildPath := some "dist/" } sampleDict emptySt).2 =
        Except.ok BuildResult.undef
      ∧ FS.read (buildFile filterProperties
          { destination := some "vars.css", filter := none,
            format := some sampleFmt }
          { buildPath := some "dist/" } sampleDict emptySt).1.fs
          (fullDestinationOf { buildPath := some "dist/" } "vars.css") =
        some (emittedContent filterProperties sampleFmt
          { destination := some "vars.css", filter := none,
            format := some sampleFmt }
          { buildPath := some "dist/" } sampleDict)
      ∧ fullDestinationOf { buildPath := some "dist/" } "vars.css" =
        ((some "dist/" : Option String).getD "") ++ "vars.css" :=
  buildFile_writes_formatter_output filterProperties
    { destination := some "vars.css", filter := none,
      format := some sampleFmt }
    { buildPath := some "dist/" } sampleDict emptySt sampleFmt "vars.css"
    rfl rfl (by decide)

theorem warnHeader_ne_successLine (full : String) :
    warnHeader full ≠ successLine full := by
  intro h
  have h2 := congrArg (fun s => s.data.head?) h
  simp only [warnHeader, successLine] at h2
  rw [data_head_append _ _ (by decide), data_head_append _ _ (by decide)]
    at h2
  exact absurd h2 (by decide)

theorem reportLines_eq_success_iff (nested : Bool) (cc rc : Nat)
    (full dest : String) (cm rm : List String) :
    reportLines nested cc rc full dest cm rm = [successLine full] ↔
      ((nested = true ∨ cc = 0) ∧ rc = 0) := by
  rw [reportLines]
  by_cases h : ((nested || cc == 0) && rc == 0) = true
  · rw [if_pos h]
    simp only [Bool.and_eq_true, Bool.or_eq_true, beq_iff_eq] at h
    simp [h]
  · rw [if_neg h]
    simp only [Bool.and_eq_true, Bool.or_eq_true, beq_iff_eq] at h
    constructor
    · intro heq
      exfalso
      have hhead : warnHeader full = successLine full := by
        have h3 := congrArg List.head? heq
        simpa using h3
      exact warnHeader_ne_successLine full hhead
    · intro hcond
      exact absurd hcond h

theorem reportLines_warning_shape (nested : Bool) (cc rc : Nat)
    (full dest : String) (cm rm : List String)
    (h : ¬ ((nested = true ∨ cc = 0) ∧ rc = 0)) :
    reportLines nested cc rc full dest cm rm =
      warnHeader full ::
        ((if 0 < cc then [collisionWarnBlock dest cm] else []) ++
          (if 0 < rc then [refWarnBlock dest rm] else [])) := by
  rw [reportLines, if_neg]
  · rfl
  · intro hb
    apply h
    simpa only [Bool.and_eq_true, Bool.or_eq_true, beq_iff_eq] using hb

/-- C6: for every emission that writes a file, the appended console lines
are the report lines; they consist of exactly one success line naming the
full destination iff (the nested flag is set OR the collision count is 0)
AND the reference-loss count is 0, and otherwise of a warning header
followed by the applicable warning blocks; and under both outcomes the
written file carries exactly the formatter output — reporting never
changes what was written. -/
theorem buildFile_reporting
    (filterFn : Dictionary → Option (Token → Bool) → FilteredProps)
    (file : FileSpec) (platform : PlatformConfig) (dictionary : Dictionary)
    (st : BuildState) (fmt : Formatter) (dest : String)
    (hf : file.format = some fmt) (hd : file.destination = some dest)
    (hns : emptyResultSkip (filterFn dictionary file.filter) = false) :
    (buildFile filterFn file platform dictionary st).1.log =
        st.log ++ reportLines fmt.nested
          (collisionMessages
            (filterFn dictionary file.filter).allProperties).length
          (GroupMessages.count st.gm
            GroupMessages.GROUP.FilteredOutputReferences)
          (fullDestinationOf platform dest) dest
          (collisionMessages (filterFn dictionary file.filter).allProperties)
          (GroupMessages.fetchMessages st.gm
            GroupMessages.GROUP.FilteredOutputReferences)
      ∧ (reportLines fmt.nested
          (collisionMessages
            (filterFn dictionary file.filter).allProperties).length
          (GroupMessages.count st.gm
            GroupMessages.GROUP.FilteredOutputReferences)
          (fullDestinationOf platform dest) dest
          (collisionMessages (filterFn dictionary file.filter).allProperties)
          (GroupMessages.fetchMessages st.gm
            GroupMessages.GROUP.FilteredOutputReferences) =
            [successLine (fullDestinationOf platform dest)] ↔
          ((fmt.nested = true ∨
              (collisionMessages
                (filterFn dictionary file.filter).allProperties).length = 0) ∧
            GroupMessages.count st.gm
              GroupMessages.GROUP.FilteredOutputReferences = 0))
      ∧ FS.read (buildFile filterFn file platform dictionary st).1.fs
          (fullDestinationOf platform dest) =
        some (emittedContent filterFn fmt file platform dictionary) := by
  rw [buildFile_run_eq filterFn file platform dictionary st fmt dest hf hd hns]
  exact ⟨rfl, reportLines_eq_success_iff _ _ _ _ _ _ _,
    FS.read_write_self _ _ _⟩

/-- Witness for C6 at a concrete input (collisions present, no nested
flag, no reference warnings: the warning path is taken). -/
theorem buildFile_reporting_witness :
    (buildFile filterProperties
        { destination := some "main.css", filter := none,
          format := some sampleFmt }
        noBuildPath sampleDict emptySt).1.log =
        emptySt.log ++ reportLines sampleFmt.nested
          (collisionMessages
            (filterProperties sampleDict none).allProperties).length
          (GroupMessages.count emptySt.gm
            GroupMessages.GROUP.FilteredOutputReferences)
          (fullDestinationOf noBuildPath "main.css") "main.css"
          (collisionMessages (filterProperties sampleDict none).allProperties)
          (GroupMessages.fetchMessages emptySt.gm
            GroupMessages.GROUP.FilteredOutputReferences)
      ∧ (reportLines sampleFmt.nested
          (collisionMessages
            (filterProperties sampleDict none).allProperties).length
          (GroupMessages.count emptySt.gm
            GroupMessages.GROUP.FilteredOutputReferences)
          (fullDestinationOf noBuildPath "main.css") "main.css"
          (collisionMessages (filterProperties sampleDict none).allProperties)
          (GroupMessages.fetchMessages emptySt.gm
            GroupMessages.GROUP.FilteredOutputReferences) =
            [successLine (fullDestinationOf noBuildPath "main.css")] ↔
          ((sampleFmt.nested = true ∨
              (collisionMessages
                (filterProperties sampleDict none).allProperties).length = 0) ∧
            GroupMessages.count emptySt.gm
              GroupMessages.GROUP.FilteredOutputReferences = 0))
      ∧ FS.read (buildFile filterProperties
          { destination := some "main.css", filter := none,
            format := some sampleFmt }
          noBuildPath sampleDict emptySt).1.fs
          (fullDestinationOf noBuildPath "main.css") =
        some (emittedContent filterProperties sampleFmt
          { destination := some "main.css", filter := none,
            format := some sampleFmt }
          noBuildPath sampleDict) :=
  buildFile_reporting filterProperties
    { destination := some "main.css", filter := none,
      format := some sampleFmt }
    noBuildPath sampleDict emptySt sampleFmt "main.css" rfl rfl (by decide)

/-- A nested-format file spec over the sample dictionary. -/
def nestedFile : FileSpec :=
  { destination := some "main.css", filter := none,
    format := some sampleNestedFmt }

/-- A state carrying one pending reference-loss warning. -/
def stRef : BuildState :=
  { fs := { dirs := [], files := [] }
    gm := [(GroupMessages.GROUP.FilteredOutputReferences, ["color.missing"])]
    log := [] }

/-- C1 (amended): for an emission whose formatter has the nested flag set,
no collision warning is printed as long as the reference-loss count is
zero — a single success line appears even when duplicate names exist; but
when the reference-loss count is positive the warning path runs, the
reference-loss block is reported and the collision block is printed too
whenever duplicates exist, nested flag notwithstanding. -/
theorem buildFile_nested_reporting
    (filterFn : Dictionary → Option (Token → Bool) → FilteredProps)
    (file : FileSpec) (platform : PlatformConfig) (dictionary : Dictionary)
    (st : BuildState) (fmt : Formatter) (dest : String)
    (hf : file.format = some fmt) (hd : file.destination = some dest)
    (hnested : fmt.nested = true)
    (hns : emptyResultSkip (filterFn dictionary file.filter) = false) :
    (GroupMessages.count st.gm GroupMessages.GROUP.FilteredOutputReferences = 0 →
      (buildFile filterFn file platform dictionary st).1.log =
        st.log ++ [successLine (fullDestinationOf platform dest)])
    ∧ (0 < GroupMessages.count st.gm
          GroupMessages.GROUP.FilteredOutputReferences →
      (buildFile filterFn file platform dictionary st).1.log =
        st.log ++
          (warnHeader (fullDestinationOf platform dest) ::
            ((if 0 < (collisionMessages
                  (filterFn dictionary file.filter).allProperties).length then
                [collisionWarnBlock dest
                  (collisionMessages
                    (filterFn dictionary file.filter).allProperties)]
              else []) ++
              [refWarnBlock dest
                (GroupMessages.fetchMessages st.gm
                  GroupMessages.GROUP.FilteredOutputReferences)]))) := by
  rw [buildFile_run_eq filterFn file platform dictionary st fmt dest hf hd hns]
  constructor
  · intro hrc
    rw [hrc, hnested]
    rw [reportLines]
    simp
  · intro hrc
    rw [hnested,
      reportLines_warning_shape true _ _ _ _ _ _
        (by intro hcond; rw [hcond.2] at hrc; exact Nat.lt_irrefl 0 hrc)]
    rw [if_pos hrc, if_pos hrc]

/-- Witness for C1's amended theorem: nested format, duplicate names, no
pending reference-loss warnings — a single success line is printed. -/
theorem buildFile_nested_reporting_witness :
    (buildFile filterProperties nestedFile noBuildPath sampleDict
        emptySt).1.log =
      emptySt.log ++
        [successLine (fullDestinationOf noBuildPath "main.css")] :=
  (buildFile_nested_reporting filterProperties nestedFile noBuildPath
    sampleDict emptySt sampleNestedFmt "main.css" rfl rfl rfl (by decide)).1
    rfl

/-- Counterexample to C1 as stated: with the nested flag set, duplicate
names in the filtered set and one pending reference-loss warning, the
collision warning block is printed after the warning header, alongside
the reference-loss block. -/
theorem buildFile_nested_collision_printed_cex :
    sampleNestedFmt.nested = true
    ∧ (buildFile filterProperties nestedFile noBuildPath sampleDict
        stRef).1.log =
      [warnHeader "main.css",
       collisionWarnBlock "main.css"
         [collisionMessage "color-a" [tokA, tokB]],
       refWarnBlock "main.css" ["color.missing"]] :=
  ⟨rfl, rfl⟩

/-- A filter dependency returning an empty container that is not a plain
`Object` (e.g. a `Map`: zero enumerable own keys, constructor not
`Object`). -/
def mapLikeFilterFn : Dictionary → Option (Token → Bool) → FilteredProps :=
  fun _ _ =>
    { hasPropertiesKey := true
      properties := { keys := [], ctorIsObject := false }
      allProperties := [] }

/-- C9: the empty-result skip fires only for a plain-Object `properties`
container — a skip result implies the filtered result has an own
`properties` key, zero enumerable keys and constructor `Object`; and for
a filtered result whose `properties` is empty but not a plain Object,
`buildFile` does not skip: the formatter is invoked and the file is
written. -/
theorem buildFile_skip_requires_plain_object
    (filterFn : Dictionary → Option (Token → Bool) → FilteredProps)
    (file : FileSpec) (platform : PlatformConfig) (dictionary : Dictionary)
    (st : BuildState) (fmt : Formatter) (dest : String)
    (hf : file.format = some fmt) (hd : file.destination = some dest) :
    ((buildFile filterFn file platform dictionary st).2 =
        Except.ok BuildResult.nullSkip →
      (filterFn dictionary file.filter).hasPropertiesKey = true
      ∧ (filterFn dictionary file.filter).properties.keys.length = 0
      ∧ (filterFn dictionary file.filter).properties.ctorIsObject = true)
    ∧ ((filterFn dictionary file.filter).properties.keys = [] →
      ((filterFn dictionary file.filter).hasPropertiesKey = false ∨
        (filterFn dictionary file.filter).properties.ctorIsObject = false) →
      (buildFile filterFn file platform dictionary st).2 =
          Except.ok BuildResult.undef
      ∧ FS.read (buildFile filterFn file platform dictionary st).1.fs
          (fullDestinationOf platform dest) =
        some (emittedContent filterFn fmt file platform dictionary)) := by
  constructor
  · intro hres
    by_cases hskip : emptyResultSkip (filterFn dictionary file.filter) = true
    · have h3 := hskip
      rw [emptyResultSkip, Bool.and_eq_true, Bool.and_eq_true] at h3
      obtain ⟨⟨h4, h5⟩, h6⟩ := h3
      exact ⟨h4, by simpa using h5, h6⟩
    · rw [buildFile_run_eq filterFn file platform dictionary st fmt dest hf hd
        (Bool.not_eq_true _ ▸ hskip)] at hres
      exact absurd (Except.ok.inj hres) (by intro hh; cases hh)
  · intro hkeys hnp
    have hns : emptyResultSkip (filterFn dictionary file.filter) = false := by
      rcases hnp with h | h <;>
        simp [emptyResultSkip, h, hkeys]
    rw [buildFile_run_eq filterFn file platform dictionary st fmt dest hf hd
      hns]
    exact ⟨rfl, FS.read_write_self _ _ _⟩

/-- Witness for C9 at a concrete input: a Map-like empty filtered result
is not skipped — the file is written with the formatter's output. -/
theorem buildFile_skip_requires_plain_object_witness :
    (buildFile mapLikeFilterFn nestedFile noBuildPath sampleDict emptySt).2 =
        Except.ok BuildResult.undef
      ∧ FS.read (buildFile mapLikeFilterFn nestedFile noBuildPath sampleDict
          emptySt).1.fs (fullDestinationOf noBuildPath "main.css") =
        some (emittedContent mapLikeFilterFn sampleNestedFmt nestedFile
          noBuildPath sampleDict) :=
  (buildFile_skip_requires_plain_object mapLikeFilterFn nestedFile
      noBuildPath sampleDict emptySt sampleNestedFmt "main.css" rfl rfl).2
    rfl (Or.inr rfl)

/-- C10: the nested marker consulted by the reporting is the one of the
originally supplied formatter, read before binding — a bound copy never
carries a `nested` own property of its own — and the formatter is invoked
with the file spec as its `this` context, receiving the normalized
argument bundle followed by the platform config and the file spec
positionally; the written content is exactly that call's result. -/
theorem buildFile_formatter_invocation
    (filterFn : Dictionary → Option (Token → Bool) → FilteredProps)
    (file : FileSpec) (platform : PlatformConfig) (dictionary : Dictionary)
    (st : BuildState) (fmt : Formatter) (dest : String)
    (hf : file.format = some fmt) (hd : file.destination = some dest)
    (hns : emptyResultSkip (filterFn dictionary file.filter) = false) :
    FS.read (buildFile filterFn file platform dictionary st).1.fs
        (fullDestinationOf platform dest) =
      some (fmt.run (some file.view)
        { dictionary :=
            mkFilteredDictionary dictionary (filterFn dictionary file.filter)
          platform := platform
          file := file.view }
        platform file.view)
    ∧ (buildFile filterFn file platform dictionary st).1.log =
      st.log ++ reportLines fmt.nested
        (collisionMessages
          (filterFn dictionary file.filter).allProperties).length
        (GroupMessages.count st.gm
          GroupMessages.GROUP.FilteredOutputReferences)
        (fullDestinationOf platform dest) dest
        (collisionMessages (filterFn dictionary file.filter).allProperties)
        (GroupMessages.fetchMessages st.gm
          GroupMessages.GROUP.FilteredOutputReferences)
    ∧ (fmt.bindThis file.view).nested = false := by
  rw [buildFile_run_eq filterFn file platform dictionary st fmt dest hf hd hns]
  exact ⟨FS.read_write_self _ _ _, rfl, rfl⟩

/-- Witness for C10 at a concrete input. -/
theorem buildFile_formatter_invocation_witness :
    FS.read (buildFile filterProperties nestedFile noBuildPath sampleDict
        emptySt).1.fs (fullDestinationOf noBuildPath "main.css") =
      some (sampleNestedFmt.run (some nestedFile.view)
        { dictionary :=
            mkFilteredDictionary sampleDict (filterProperties sampleDict none)
          platform := noBuildPath
          file := nestedFile.view }
        noBuildPath nestedFile.view)
    ∧ (buildFile filterProperties nestedFile noBuildPath sampleDict
        emptySt).1.log =
      emptySt.log ++ reportLines sampleNestedFmt.nested
        (collisionMessages
          (filterProperties sampleDict none).allProperties).length
        (GroupMessages.count emptySt.gm
          GroupMessages.GROUP.FilteredOutputReferences)
        (fullDestinationOf noBuildPath "main.css") "main.css"
        (collisionMessages (filterProperties sampleDict none).allProperties)
        (GroupMessages.fetchMessages emptySt.gm
          GroupMessages.GROUP.FilteredOutputReferences)
    ∧ (sampleNestedFmt.bindThis nestedFile.view).nested = false :=
  buildFile_formatter_invocation filterProperties nestedFile noBuildPath
    sampleDict emptySt sampleNestedFmt "main.css" rfl rfl (by decide)

/-- C5: for every filtered token list `T` the collision detector reports
one diagnostic per distinct name shared by two or more tokens of `T` —
its count equals the number of such names, not the total number of
duplicate tokens —; each diagnostic lists the dotted path and value of
every contributing token in the order the tokens occur in `T`
(`tokensNamed` preserves `T`'s order), the diagnostics appear in
first-seen order of the colliding names, and exactly these messages
populate the per-destination diagnostics group. -/
theorem collision_detector_spec (T : List Token) (gm : GroupMessages.Store)
    (dest : String) :
    collisionMessages T =
      ((namesInOrder T).filter
          (fun n => decide (1 < (tokensNamed T n).length))).map
        (fun n => collisionMessage n (tokensNamed T n))
    ∧ (collisionMessages T).length =
      ((namesInOrder T).filter
          (fun n => decide (1 < (tokensNamed T n).length))).length
    ∧ GroupMessages.fetchMessages (gmAfterCollisions gm dest T)
        (collisionKey dest) = collisionMessages T := by
  refine ⟨collisionMessages_eq T, ?_,
    fetchMessages_gmAfterCollisions_self gm dest T⟩
  rw [collisionMessages_eq T, List.length_map]

theorem gmAfterCollisions_idem (gm : GroupMessages.Store) (d : String)
    (T : List Token) :
    gmAfterCollisions (gmAfterCollisions gm d T) d T =
      gmAfterCollisions gm d T := by
  conv_lhs => rw [gmAfterCollisions]
  rw [clear_gmAfterCollisions_self]
  rfl

/-- C8 (amended): with no pending reference-loss warnings, emitting the
same file spec, platform and dictionary twice produces the same result,
byte-identical file content at the destination, identical appended
console lines and an identical collision-diagnostics store both times:
the per-destination collision group is cleared and rebuilt on each
emission. (When reference-loss warnings are pending, the first emission
flushes them, so the second prints different diagnostics — see the
counterexample.) -/
theorem buildFile_idempotent_no_refs
    (filterFn : Dictionary → Option (Token → Bool) → FilteredProps)
    (file : FileSpec) (platform : PlatformConfig) (dictionary : Dictionary)
    (st : BuildState) (fmt : Formatter) (dest : String)
    (hf : file.format = some fmt) (hd : file.destination = some dest)
    (hrc : GroupMessages.count st.gm
      GroupMessages.GROUP.FilteredOutputReferences = 0) :
    ((buildFile filterFn file platform dictionary
        (buildFile filterFn file platform dictionary st).1).2 =
      (buildFile filterFn file platform dictionary st).2)
    ∧ ((buildFile filterFn file platform dictionary
        (buildFile filterFn file platform dictionary st).1).1.log.drop
          (buildFile filterFn file platform dictionary st).1.log.length =
      (buildFile filterFn file platform dictionary st).1.log.drop
        st.log.length)
    ∧ (FS.read (buildFile filterFn file platform dictionary
          (buildFile filterFn file platform dictionary st).1).1.fs
          (fullDestinationOf platform dest) =
      FS.read (buildFile filterFn file platform dictionary st).1.fs
        (fullDestinationOf platform dest))
    ∧ ((buildFile filterFn file platform dictionary
        (buildFile filterFn file platform dictionary st).1).1.gm =
      (buildFile filterFn file platform dictionary st).1.gm) := by
  by_cases hskip : emptyResultSkip (filterFn dictionary file.filter) = true
  · rw [buildFile_skip_eq filterFn file platform dictionary st fmt dest hf hd
      hskip,
      buildFile_skip_eq filterFn file platform dictionary _ fmt dest hf hd
      hskip]
    refine ⟨rfl, ?_, ?_, rfl⟩
    · show ((st.log ++ _) ++ _).drop (st.log ++ _).length = _
      rw [List.drop_left, List.drop_left]
    · exact FS.read_mkdirIfNeeded _ _ _
  · have hns : emptyResultSkip (filterFn dictionary file.filter) = false :=
      Bool.not_eq_true _ ▸ hskip
    have hc2 : GroupMessages.count
        (gmAfterCollisions st.gm dest
          (filterFn dictionary file.filter).allProperties)
        GroupMessages.GROUP.FilteredOutputReferences = 0 := by
      rw [GroupMessages.count,
        fetchMessages_gmAfterCollisions_ne _ _ _
          (Ne.symm (collisionKey_ne_refs dest))]
      exact hrc
    have hfe : GroupMessages.fetchMessages
        (gmAfterCollisions st.gm dest
          (filterFn dictionary file.filter).allProperties)
        GroupMessages.GROUP.FilteredOutputReferences =
        GroupMessages.fetchMessages st.gm
          GroupMessages.GROUP.FilteredOutputReferences :=
      fetchMessages_gmAfterCollisions_ne _ _ _
        (Ne.symm (collisionKey_ne_refs dest))
    rw [buildFile_run_eq filterFn file platform dictionary st fmt dest hf hd
      hns]
    simp only [hrc, Nat.lt_irrefl, if_false]
    rw [buildFile_run_eq filterFn file platform dictionary _ fmt dest hf hd
      hns]
    simp only [hc2, hfe, hrc, Nat.lt_irrefl, if_false,
      gmAfterCollisions_idem]
    refine ⟨trivial, ?_, ?_, trivial⟩
    · show ((st.log ++ _) ++ _).drop (st.log ++ _).length = _
      rw [List.drop_left, List.drop_left]
    · rw [FS.read_write_self, FS.read_write_self]

/-- Witness for C8's amended theorem at a concrete input. -/
theorem buildFile_idempotent_no_refs_witness :
    ((buildFile filterProperties nestedFile noBuildPath sampleDict
        (buildFile filterProperties nestedFile noBuildPath sampleDict
          emptySt).1).2 =
      (buildFile filterProperties nestedFile noBuildPath sampleDict
        emptySt).2)
    ∧ ((buildFile filterProperties nestedFile noBuildPath sampleDict
        (buildFile filterProperties nestedFile noBuildPath sampleDict
          emptySt).1).1.log.drop
          (buildFile filterProperties nestedFile noBuildPath sampleDict
            emptySt).1.log.length =
      (buildFile filterProperties nestedFile noBuildPath sampleDict
        emptySt).1.log.drop emptySt.log.length)
    ∧ (FS.read (buildFile filterProperties nestedFile noBuildPath sampleDict
          (buildFile filterProperties nestedFile noBuildPath sampleDict
            emptySt).1).1.fs (fullDestinationOf noBuildPath "main.css") =
      FS.read (buildFile filterProperties nestedFile noBuildPath sampleDict
          emptySt).1.fs (fullDestinationOf noBuildPath "main.css"))
    ∧ ((buildFile filterProperties nestedFile noBuildPath sampleDict
        (buildFile filterProperties nestedFile noBuildPath sampleDict
          emptySt).1).1.gm =
      (buildFile filterProperties nestedFile noBuildPath sampleDict
        emptySt).1.gm) :=
  buildFile_idempotent_no_refs filterProperties nestedFile noBuildPath
    sampleDict emptySt sampleNestedFmt "main.css" rfl rfl rfl

/-- Counterexample to C8 as stated: with one pending reference-loss
warning, the first emission prints three lines (warning header, collision
block, reference-loss block) and flushes the reference-loss group, so the
second emission of the very same inputs prints a single success line —
the two emissions do not produce the same diagnostics. -/
theorem buildFile_second_run_diff_cex :
    ((buildFile filterProperties nestedFile noBuildPath sampleDict
        stRef).1.log.drop stRef.log.length).length = 3
    ∧ ((buildFile filterProperties nestedFile noBuildPath sampleDict
        (buildFile filterProperties nestedFile noBuildPath sampleDict
          stRef).1).1.log.drop
        (buildFile filterProperties nestedFile noBuildPath sampleDict
          stRef).1.log.length).length = 1 := by
  constructor
  · rfl
  · rfl

end StyleDictionary
